import Mathlib

/-!
Shallow embedding of the flowhouse frontend query-translation code
(pkg/frontend: field resolution, query building, time parsing, the
dictionary-values endpoint) and of the query HTTP handler control flow.

Go strings are modelled as Lean `String`; `strings.Split` is modelled by
an explicit recursive splitter on `List Char` (specialised to the two
separators the source uses, `"__"` and `"/"`); Go maps
(`url.Values = map[string][]string`) are modelled as association lists
`List (String × List String)` with first-match lookup; fallible Go
functions returning `(T, error)` are modelled as `Except`.
-/

set_option maxRecDepth 100000

namespace Flowhouse

/-- Prepend a character to the first segment of a split result
(used to model how a split accumulates characters before a separator). -/
def consHead (c : Char) : List (List Char) → List (List Char)
  | [] => [[c]]
  | x :: xs => (c :: x) :: xs

/-- Model of Go `strings.Split(s, "__")` on the character list of `s`:
scan left to right, cutting at each non-overlapping occurrence of `__`. -/
def goSplitUU : List Char → List (List Char)
  | [] => [[]]
  | [c] => [[c]]
  | c₁ :: c₂ :: rest =>
    if c₁ = '_' ∧ c₂ = '_' then [] :: goSplitUU rest
    else consHead c₁ (goSplitUU (c₂ :: rest))

/-- Model of Go `strings.Split(s, "/")` (single-character separator). -/
def goSplitSlash : List Char → List (List Char)
  | [] => [[]]
  | c :: rest =>
    if c = '/' then [] :: goSplitSlash rest
    else consHead c (goSplitSlash rest)

/-- Whether a character list contains the two-character separator `__`
(model of Go `strings.Contains(s, "__")`). -/
def containsUU : List Char → Bool
  | [] => false
  | [_] => false
  | c₁ :: c₂ :: rest => (c₁ = '_' && c₂ = '_') || containsUU (c₂ :: rest)

/-- String-level wrapper for `goSplitUU`. -/
def goSplitUUStr (s : String) : List String :=
  (goSplitUU s.data).map String.mk

/-- String-level wrapper for `goSplitSlash`. -/
def goSplitSlashStr (s : String) : List String :=
  (goSplitSlash s.data).map String.mk

/-- Model of Go `strings.HasPrefix(s, pat)` at the character-list level. -/
def listLeads : List Char → List Char → Bool
  | [], _ => true
  | _ :: _, [] => false
  | p :: ps, c :: cs => p = c && listLeads ps cs

/-- Translation of `parseFieldName` (clickhousegw.go frontend part):
`parts := strings.Split(name, "__"); if len(parts) < 2 return parts[0], "";
return parts[0], parts[1]`. -/
def parseFieldName (name : String) : String × String :=
  match goSplitUUStr name with
  | [] => ("", "")
  | [x] => (x, "")
  | x :: y :: _ => (x, y)

deriving instance DecidableEq for Except

set_option linter.dupNamespace false

/-- Translation of the `Dict` configuration struct
(`Field`, `Dict`, `Expr`, `Keys` fields, as in the YAML config). -/
structure Dict where
  Field : String
  Dict : String
  Expr : String
  Keys : List String
deriving DecidableEq, Repr

/-- Translation of `Dicts.getDict`: linear scan, first binding whose
`Field` equals the requested field wins, `nil` when none matches. -/
def getDict (ds : List Dict) (field : String) : Option Dict :=
  ds.find? (fun x => x.Field == field)

/-- Model of Go `fmt.Sprintf` restricted to the `%s` and `%%` verbs
(the only verbs the dictionary `Expr` templates use): each `%s` consumes
the next argument; a `%s` with no argument left renders as
`%!s(MISSING)`; leftover arguments are appended in Go's
`%!(EXTRA string=...)` form. -/
def goSprintfAux : List Char → List String → String
  | [], [] => ""
  | [], a :: args =>
    "%!(EXTRA " ++ String.intercalate ", " ((a :: args).map (fun x => "string=" ++ x)) ++ ")"
  | '%' :: 's' :: rest, [] => "%!s(MISSING)" ++ goSprintfAux rest []
  | '%' :: 's' :: rest, a :: args => a ++ goSprintfAux rest args
  | '%' :: '%' :: rest, args => "%" ++ goSprintfAux rest args
  | c :: rest, args => String.mk [c] ++ goSprintfAux rest args

/-- String-level wrapper for `goSprintfAux`. -/
def goSprintf (format : String) (args : List String) : String :=
  goSprintfAux format.data args

/-- Translation of `resolveVirtualField`: the two virtual composite
fields render as fixed CIDR-string SQL expressions, everything else is
returned unchanged. -/
def resolveVirtualField (f : String) : String :=
  if f = "src_ip_pfx" then
    "concat(IPv6NumToString(src_ip_pfx_addr), \x27/\x27, toString(src_ip_pfx_len))"
  else if f = "dst_ip_pfx" then
    "concat(IPv6NumToString(dst_ip_pfx_addr), \x27/\x27, toString(dst_ip_pfx_len))"
  else f

/-- Translation of `resolveDictIfNecessary`: plain names (empty related
part) are returned as-is; composite names need a dictionary binding for
their base, else an error; with a binding the result is a
`dictGet('<dict>', '<sub>', <expr>)` call where `<expr>` interpolates the
configured keys (or the base field itself when no keys are configured)
into the binding's expression template. -/
def resolveDictIfNecessary (ds : List Dict) (fieldName : String) : Except String String :=
  let (flowsFieldName, relatedFieldsName) := parseFieldName fieldName
  if relatedFieldsName = "" then .ok flowsFieldName
  else
    match getDict ds flowsFieldName with
    | none => .error ("Dict for field " ++ fieldName ++ " not found")
    | some d =>
      let params := if d.Keys = [] then [flowsFieldName] else d.Keys
      .ok ("dictGet(\x27" ++ d.Dict ++ "\x27, \x27" ++ relatedFieldsName ++ "\x27, "
            ++ goSprintf d.Expr params ++ ")")

/-- Numeric value of a decimal digit character, `none` for non-digits
(model of Go's `isDigit` check plus digit extraction). -/
def digitVal (c : Char) : Option Nat :=
  if '0' ≤ c ∧ c ≤ '9' then some (c.toNat - 48) else none

/-- Parse exactly two decimal digits (Go `getnum(s, true)` as used for the
fixed-width month, day, minute and second fields of the RFC3339 layout). -/
def parse2 : List Char → Option (Nat × List Char)
  | a :: b :: rest =>
    match digitVal a, digitVal b with
    | some x, some y => some (10 * x + y, rest)
    | _, _ => none
  | _ => none

/-- Parse exactly four decimal digits (the `2006` year field). -/
def parse4 : List Char → Option (Nat × List Char)
  | a :: b :: c :: d :: rest =>
    match digitVal a, digitVal b, digitVal c, digitVal d with
    | some w, some x, some y, some z => some (1000 * w + 100 * x + 10 * y + z, rest)
    | _, _, _, _ => none
  | _ => none

/-- Parse one or two decimal digits (Go `getnum(s, false)` as used for the
`15` hour field: a second digit is consumed only if present). -/
def parseHourFlex : List Char → Option (Nat × List Char)
  | [] => none
  | [a] =>
    match digitVal a with
    | some x => some (x, [])
    | none => none
  | a :: b :: rest =>
    match digitVal a with
    | none => none
    | some x =>
      match digitVal b with
      | none => some (x, b :: rest)
      | some y => some (10 * x + y, rest)

/-- Require a specific literal character next (the `-`, `T`, `:` layout
separators). -/
def expectCh (c : Char) : List Char → Option (List Char)
  | x :: rest => if x = c then some rest else none
  | [] => none

/-- Model of Go's special case after the seconds field: a `.` or `,`
followed by a digit consumes a fractional-second run of digits (the
fraction does not affect `Unix()` seconds, so its value is dropped). -/
def skipFraction (l : List Char) : List Char :=
  match l with
  | c :: d :: rest =>
    if (c = '.' ∨ c = ',') ∧ (digitVal d).isSome then
      (d :: rest).dropWhile (fun x => (digitVal x).isSome)
    else l
  | _ => l

/-- Parse the `Z07:00` timezone field: `Z` for UTC, otherwise a sign, two
digits, `:`, two digits; returns the offset in seconds east of UTC. -/
def parseTZ : List Char → Option (Int × List Char)
  | [] => none
  | c :: rest =>
    if c = 'Z' then some (0, rest)
    else if c = '+' ∨ c = '-' then
      match parse2 rest with
      | none => none
      | some (hh, rest₁) =>
        match expectCh ':' rest₁ with
        | none => none
        | some rest₂ =>
          match parse2 rest₂ with
          | none => none
          | some (mm, rest₃) =>
            some ((if c = '-' then -1 else 1) * ((hh : Int) * 3600 + (mm : Int) * 60), rest₃)
    else none

/-- Gregorian leap-year test as in Go's `isLeap`. -/
def isLeapYear (y : Nat) : Bool :=
  y % 4 = 0 && (y % 100 ≠ 0 || y % 400 = 0)

/-- Days in a month as in Go's `daysIn` (used by `time.Parse` to validate
the day of month). -/
def goDaysIn (m y : Nat) : Nat :=
  if m = 2 then (if isLeapYear y then 29 else 28)
  else if m = 4 ∨ m = 6 ∨ m = 9 ∨ m = 11 then 30
  else 31

/-- Days from the civil epoch 1970-01-01 to year `y`, month `m`, day `d`
of the proleptic Gregorian calendar (the date arithmetic underlying Go's
`Time.Unix`). -/
def daysFromCivil (y m d : Nat) : Int :=
  let yi : Int := if m ≤ 2 then (y : Int) - 1 else (y : Int)
  let era : Int := (if 0 ≤ yi then yi else yi - 399) / 400
  let yoe : Int := yi - era * 400
  let doy : Int := (153 * (if 2 < m then (m : Int) - 3 else (m : Int) + 9) + 2) / 5 + (d : Int) - 1
  let doe : Int := yoe * 365 + yoe / 4 - yoe / 100 + doy
  era * 146097 + doe - 719468

/-- Model of Go `time.Parse(time.RFC3339, s).Unix()` for the layout
`2006-01-02T15:04:05Z07:00`: fixed-width numeric fields with literal
separators, the one-or-two-digit hour, an optional fractional-second run
after the seconds, the `Z`-or-signed-offset timezone, a trailing-garbage
check, and Go's range validation of month, day (against the month
length), hour, minute and second.  Returns the epoch seconds, `none` on
any parse or validation failure (Go's error). -/
def goTimeParse (l₀ : List Char) : Option Int :=
  match parse4 l₀ with
  | none => none
  | some (year, l₁) =>
  match expectCh '-' l₁ with
  | none => none
  | some l₂ =>
  match parse2 l₂ with
  | none => none
  | some (month, l₃) =>
  match expectCh '-' l₃ with
  | none => none
  | some l₄ =>
  match parse2 l₄ with
  | none => none
  | some (day, l₅) =>
  match expectCh 'T' l₅ with
  | none => none
  | some l₆ =>
  match parseHourFlex l₆ with
  | none => none
  | some (hour, l₇) =>
  match expectCh ':' l₇ with
  | none => none
  | some l₈ =>
  match parse2 l₈ with
  | none => none
  | some (minute, l₉) =>
  match expectCh ':' l₉ with
  | none => none
  | some l₁₀ =>
  match parse2 l₁₀ with
  | none => none
  | some (sec, l₁₁) =>
  match parseTZ (skipFraction l₁₁) with
  | none => none
  | some (offset, l₁₂) =>
  if l₁₂ ≠ [] then none
  else if month < 1 ∨ 12 < month then none
  else if day < 1 ∨ goDaysIn month year < day then none
  else if 24 ≤ hour then none
  else if 60 ≤ minute then none
  else if 60 ≤ sec then none
  else some (86400 * daysFromCivil year month day
              + 3600 * (hour : Int) + 60 * (minute : Int) + (sec : Int) - offset)

/-- Translation of `timeFieldToTimestamp`: append the hard-coded
`":00+02:00"` suffix (seconds plus fixed UTC offset) and parse as
RFC3339; the Go error message interpolates the appended string with `%q`
(the inner `time.Parse` error text is elided here). -/
def timeFieldToTimestamp (v : String) : Except String Int :=
  let w := v ++ ":00+02:00"
  match goTimeParse w.data with
  | some t => .ok t
  | none => .error ("Unable to parse \"" ++ w ++ "\"")

/-- First-match lookup in the association-list model of `url.Values`
(`some` iff the key is present, mirroring Go's `_, exists := m[k]`). -/
def getParam (fields : List (String × List String)) (k : String) : Option (List String) :=
  (fields.find? (fun kv => kv.1 == k)).map (fun kv => kv.2)

/-- Go map indexing `m[k]` on `url.Values`: the value slice when the key
is present, the nil (empty) slice otherwise. -/
def lookupVals (fields : List (String × List String)) (k : String) : List String :=
  (getParam fields k).getD []

/-- Validation failures of `fieldsToQuery`, one constructor per distinct
Go error; `unableToParseTime` carries the wrapped inner message
(`errors.Wrap(err, "Unable to parse time")`). -/
inductive QueryErr where
  | noBreakdownSet
  | noStartTimeGiven
  | noEndTimeGiven
  | unableToParseTime (msg : String)
deriving DecidableEq, Repr

/-- Go error text of each `QueryErr` (the `fmt.Errorf` / wrap messages). -/
def QueryErr.message : QueryErr → String
  | .noBreakdownSet => "No breakdown set"
  | .noStartTimeGiven => "No start time given"
  | .noEndTimeGiven => "No end time given"
  | .unableToParseTime msg => "Unable to parse time: " ++ msg

/-- Translation of the breakdown loop of `fieldsToQuery`: each breakdown
field is resolved (virtual fields first, then dictionary lookups); a
resolution failure logs and skips the field (`continue`), a success
appends `<resolved> as <originalName>`. -/
def breakdownSelect (ds : List Dict) (breakdown : List String) : List String :=
  breakdown.filterMap (fun fieldName =>
    match resolveDictIfNecessary ds (resolveVirtualField fieldName) with
    | .error _ => none
    | .ok statement => some (statement ++ " as " ++ fieldName))

/-- Translation of the filter loop of `fieldsToQuery`: every parameter
except `breakdown`, `time_start`, `time_end` and the `filter_field*`
metadata keys is resolved; a resolution failure skips the condition; the
values are then looked up under the *resolved* name (the Go code
reassigns `fieldName` before indexing the map), a single value yielding
an `=` predicate, anything else an `IN (...)` predicate. -/
def filterConditions (ds : List Dict) (fields : List (String × List String)) : List String :=
  fields.filterMap (fun kv =>
    if kv.1 == "breakdown" || kv.1 == "time_start" || kv.1 == "time_end"
        || listLeads "filter_field".data kv.1.data then none
    else
      match resolveDictIfNecessary ds (resolveVirtualField kv.1) with
      | .error _ => none
      | .ok statement =>
        match lookupVals fields (resolveVirtualField kv.1) with
        | [v] => some (statement ++ " = \x27" ++ v ++ "\x27")
        | vs =>
          some (statement ++ " IN ("
                ++ String.intercalate ", " (vs.map (fun v => "\x27" ++ v ++ "\x27")) ++ ")"))

/-- Translation of the GROUP BY construction of `fieldsToQuery`: the
bucket alias `t` followed by the *raw* breakdown field names in request
order (note: not the resolved expressions, and with no skipping of
fields whose resolution failed). -/
def groupByList (fields : List (String × List String)) : List String :=
  "t" :: lookupVals fields "breakdown"

/-- Translation of `fieldsToQuery`: presence validation of `breakdown`,
`time_start`, `time_end` (in that order), time parsing of both bounds,
then assembly of the SELECT list, WHERE conditions (time-range predicate
first) and GROUP BY into the final statement. -/
def fieldsToQuery (dbName : String) (ds : List Dict)
    (fields : List (String × List String)) : Except QueryErr String :=
  if (getParam fields "breakdown").isNone then .error .noBreakdownSet
  else if (getParam fields "time_start").isNone then .error .noStartTimeGiven
  else if (getParam fields "time_end").isNone then .error .noEndTimeGiven
  else
    match timeFieldToTimestamp ((lookupVals fields "time_start").headD "") with
    | .error e => .error (.unableToParseTime e)
    | .ok start =>
    match timeFieldToTimestamp ((lookupVals fields "time_end").headD "") with
    | .error e => .error (.unableToParseTime e)
    | .ok stop =>
      let selectFieldList :=
        "timestamp as t" :: (breakdownSelect ds (lookupVals fields "breakdown")
          ++ ["sum(size * samplerate) * 8 / 10"])
      let conditions :=
        ("t BETWEEN toDateTime(" ++ toString start ++ ") AND toDateTime(" ++ toString stop ++ ")")
          :: filterConditions ds fields
      .ok ("SELECT " ++ String.intercalate ", " selectFieldList
            ++ " FROM " ++ dbName ++ ".flows WHERE " ++ String.intercalate " AND " conditions
            ++ " GROUP BY " ++ String.intercalate ", " (groupByList fields)
            ++ " ORDER BY t")

/-- Translation of `processQuery` control flow: an empty query-parameter
map is the deliberate `nil, nil` no-op; otherwise the SQL statement is
built (errors wrapped) and executed (errors wrapped).  Rows are modelled
after the driver scan, as the `(timestamp, compositeKey, value)` triples
the row-pivoting loop produces; `dbExec` stands for the ClickHouse
round trip. -/
def processQuery (dbName : String) (ds : List Dict)
    (queryParams : List (String × List String))
    (dbExec : String → Except String (List (Int × String × Nat))) :
    Except String (Option (List (Int × String × Nat))) :=
  if queryParams = [] then .ok none
  else
    match fieldsToQuery dbName ds queryParams with
    | .error e => .error ("Unable to generate SQL query: " ++ e.message)
    | .ok query =>
      match dbExec query with
      | .error e => .error ("Query failed: " ++ e)
      | .ok rows => .ok (some rows)

/-- Translation of `QueryHandler`: an error from `processQuery` writes
status 500 with no body; a `nil` result also writes status 500 with no
body; otherwise the CSV rendering of the result is written with the
implicit status 200 (`csvRender` stands for `result.csv`, whose only
failure mode is a write error on the response stream). -/
def QueryHandler (dbName : String) (ds : List Dict)
    (queryParams : List (String × List String))
    (dbExec : String → Except String (List (Int × String × Nat)))
    (csvRender : List (Int × String × Nat) → String) : Nat × String :=
  match processQuery dbName ds queryParams dbExec with
  | .error _ => (500, "")
  | .ok none => (500, "")
  | .ok (some res) => (200, csvRender res)

/-- Translation of `getFieldsDictName`: linear scan over the dictionary
bindings, first match returns its dictionary name, otherwise `""`. -/
def getFieldsDictName (ds : List Dict) (fieldName : String) : String :=
  match ds.find? (fun d => d.Field == fieldName) with
  | some d => d.Dict
  | none => ""

/-- Translation of `parseDictValueRequest`: the path segment must split
on `__` into exactly two parts. -/
def parseDictValueRequest (input : String) : Except String (String × String) :=
  match goSplitUUStr input with
  | [a, b] => .ok (a, b)
  | _ => .error "Invalid format"

/-- Lexicographic strict order on character lists by code point,
the order Go's `<` on strings induces (UTF-8 byte order and code-point
order agree). -/
def strLtB : List Char → List Char → Bool
  | [], [] => false
  | [], _ :: _ => true
  | _ :: _, [] => false
  | a :: as, b :: bs =>
    if a.toNat < b.toNat then true
    else if b.toNat < a.toNat then false
    else strLtB as bs

/-- Ordered insert used to model `sort.Slice(res, res[i] < res[j])`.
Equal strings are identical values, so the sorted permutation is unique
and any comparison sort (Go's pdqsort included) produces this result. -/
def insertSorted (s : String) : List String → List String
  | [] => [s]
  | t :: ts => if strLtB t.data s.data then t :: insertSorted s ts else s :: t :: ts

/-- Sorting model for the dictionary-values endpoint (see
`insertSorted`). -/
def sortStrings : List String → List String
  | [] => []
  | s :: ss => insertSorted s (sortStrings ss)

/-- Lowercase hex digit (as emitted by `encoding/json`). -/
def hexDigit (n : Nat) : Char :=
  match n with
  | 0 => '0' | 1 => '1' | 2 => '2' | 3 => '3' | 4 => '4'
  | 5 => '5' | 6 => '6' | 7 => '7' | 8 => '8' | 9 => '9'
  | 10 => 'a' | 11 => 'b' | 12 => 'c' | 13 => 'd' | 14 => 'e'
  | _ => 'f'

/-- Escaping of one character inside a JSON string, following
`encoding/json` defaults: quote, backslash, the common control escapes,
`\u00XX` for other control characters, and HTML-safe escaping of
`<`, `>`, `&`. -/
def jsonEscapeChar (c : Char) : String :=
  if c = '"' then "\\\""
  else if c = '\\' then "\\\\"
  else if c = '\n' then "\\n"
  else if c = '\r' then "\\r"
  else if c = '\t' then "\\t"
  else if c = '<' then "\\u003c"
  else if c = '>' then "\\u003e"
  else if c = '&' then "\\u0026"
  else if c.toNat < 32 then
    "\\u00" ++ String.mk [hexDigit (c.toNat / 16), hexDigit (c.toNat % 16)]
  else String.mk [c]

/-- JSON rendering of one string (quoted, escaped). -/
def jsonQuote (s : String) : String :=
  "\"" ++ String.join (s.data.map jsonEscapeChar) ++ "\""

/-- Model of `json.Marshal` on a `[]string` value: a compact JSON array
(this can never fail for string slices, so the handler's marshal-error
branch is unreachable and not modelled). -/
def jsonMarshalStrings (l : List String) : String :=
  "[" ++ String.intercalate "," (l.map jsonQuote) ++ "]"

/-- Translation of the `GetDictValues` HTTP handler: the URL path must
split on `/` into exactly three parts and the last part into
`field__column`; the field must have a dictionary binding (else 400);
the backend lookup (`chgw.GetDictValues`, external to the shown source
and modelled as the `backend` oracle) fails with 500; otherwise empty
strings are filtered out, the rest sorted ascending and written as JSON
with the implicit status 200. -/
def GetDictValues (ds : List Dict) (path : String)
    (backend : String → String → Except Unit (List String)) : Nat × String :=
  match goSplitSlashStr path with
  | [_, _, seg] =>
    (match parseDictValueRequest seg with
     | .error _ => (400, "")
     | .ok (fieldName, column) =>
       let dict := getFieldsDictName ds fieldName
       if dict = "" then (400, "")
       else
         match backend dict column with
         | .error _ => (500, "")
         | .ok values =>
           let res := values.filter (fun v => v ≠ "")
           (200, jsonMarshalStrings (sortStrings res)))
  | _ => (400, "")

/-! ### Lemmas about the `__` splitter and field-name parsing -/

theorem goSplitUU_ne_nil (l : List Char) : goSplitUU l ≠ [] := by
  induction l using goSplitUU.induct with
  | case1 => simp [goSplitUU]
  | case2 c => simp [goSplitUU]
  | case3 c₁ c₂ rest h ih => simp [goSplitUU, h]
  | case4 c₁ c₂ rest h ih =>
    simp only [goSplitUU, if_neg h]
    cases hg : goSplitUU (c₂ :: rest) with
    | nil => exact absurd hg ih
    | cons x xs => simp [consHead]

theorem goSplitUU_no_sep (l : List Char) (h : containsUU l = false) : goSplitUU l = [l] := by
  induction l using goSplitUU.induct with
  | case1 => rfl
  | case2 c => rfl
  | case3 c₁ c₂ rest hc ih =>
    exfalso
    simp [containsUU] at h
    exact h.1 hc.1 hc.2
  | case4 c₁ c₂ rest hc ih =>
    simp only [containsUU, Bool.or_eq_false_iff] at h
    rw [goSplitUU, if_neg hc, ih h.2, consHead]

theorem goSplitUU_sep_append (base rest : List Char)
    (h : containsUU (base ++ ['_']) = false) :
    goSplitUU (base ++ '_' :: '_' :: rest) = base :: goSplitUU rest := by
  induction base with
  | nil => simp [goSplitUU]
  | cons c bs ih =>
    cases bs with
    | nil =>
      simp [containsUU] at h
      simp [goSplitUU, consHead, h]
    | cons c₂ bs₂ =>
      simp only [containsUU, Bool.or_eq_false_iff] at h
      have h2 := ih h.2
      simp only [List.cons_append] at h2 ⊢
      simp only [goSplitUU]
      rw [if_neg (by simpa using h.1), h2, consHead]

theorem containsUU_of_append_single (l : List Char) (c : Char)
    (h : containsUU (l ++ [c]) = false) : containsUU l = false := by
  induction l using containsUU.induct with
  | case1 => rfl
  | case2 a => rfl
  | case3 a b rest ih =>
    simp only [List.cons_append, containsUU, Bool.or_eq_false_iff] at h ⊢
    exact ⟨h.1, ih h.2⟩

theorem string_data_append (s t : String) : (s ++ t).data = s.data ++ t.data := rfl

theorem parseFieldName_no_sep (s : String) (h : containsUU s.data = false) :
    parseFieldName s = (s, "") := by
  unfold parseFieldName goSplitUUStr
  rw [goSplitUU_no_sep s.data h]
  rfl

theorem parseFieldName_sep (base sub : String)
    (hb : containsUU (base.data ++ ['_']) = false)
    (hs : containsUU sub.data = false) :
    parseFieldName (base ++ "__" ++ sub) = (base, sub) := by
  unfold parseFieldName goSplitUUStr
  have hd : (base ++ "__" ++ sub).data = base.data ++ '_' :: '_' :: sub.data := by
    simp [string_data_append]
  rw [hd, goSplitUU_sep_append base.data sub.data hb, goSplitUU_no_sep sub.data hs]
  rfl

theorem parseFieldName_two_seps (base s₁ s₂ : String)
    (hb : containsUU (base.data ++ ['_']) = false)
    (h1 : containsUU (s₁.data ++ ['_']) = false) :
    parseFieldName (base ++ "__" ++ s₁ ++ "__" ++ s₂) = (base, s₁) := by
  unfold parseFieldName goSplitUUStr
  have hd : (base ++ "__" ++ s₁ ++ "__" ++ s₂).data
      = base.data ++ '_' :: '_' :: (s₁.data ++ '_' :: '_' :: s₂.data) := by
    simp [string_data_append]
  rw [hd, goSplitUU_sep_append base.data _ hb, goSplitUU_sep_append s₁.data _ h1]
  cases h2 : goSplitUU s₂.data with
  | nil => rfl
  | cons x xs => rfl

/-! ### Claim C3 -/

/-- C3 counterexample: on `a__b__c` the parser returns subfield `b`
(the segment between the first and second separators), not the entire
remainder `b__c` after the first separator, refuting the claim that the
subfield is everything after the first `__`. -/
theorem parseFieldName_double_sep_counterexample :
    parseFieldName "a__b__c" = ("a", "b") ∧ parseFieldName "a__b__c" ≠ ("a", "b__c") := by
  decide

/-- C3 (amended): `parseFieldName` splits on every `__` occurrence and
keeps the first two segments: the base is the text before the first
`__`; the subfield is the segment strictly between the first and second
separators (not the entire remainder); a name with no `__` parses as a
plain field with empty subfield.  The cleanliness hypotheses
(`containsUU (· ++ [\x27_\x27]) = false`) say the segments contain no `__`
and do not end in `_`, i.e. the displayed separators are the real
ones. -/
theorem parseFieldName_first_two_segments (base sub tail : String)
    (hb : containsUU (base.data ++ ['_']) = false)
    (hs : containsUU (sub.data ++ ['_']) = false) :
    parseFieldName (base ++ "__" ++ sub ++ "__" ++ tail) = (base, sub)
    ∧ parseFieldName (base ++ "__" ++ sub) = (base, sub)
    ∧ parseFieldName base = (base, "") := by
  refine ⟨parseFieldName_two_seps base sub tail hb hs, ?_, ?_⟩
  · exact parseFieldName_sep base sub hb (containsUU_of_append_single _ _ hs)
  · exact parseFieldName_no_sep base (containsUU_of_append_single _ _ hb)

/-- Witness for C3 (amended) at `base = "a"`, `sub = "b"`, `tail = "c"`. -/
theorem parseFieldName_first_two_segments_witness :
    containsUU ("a".data ++ ['_']) = false
    ∧ containsUU ("b".data ++ ['_']) = false
    ∧ parseFieldName "a__b__c" = ("a", "b") :=
  ⟨by decide, by decide,
    (parseFieldName_first_two_segments "a" "b" "c" (by decide) (by decide)).1⟩

/-- Helper: a name with no `__` separator passes `resolveDictIfNecessary`
through unchanged (its related part is empty). -/
theorem resolveDict_of_no_sep (ds : List Dict) (s : String)
    (h : containsUU s.data = false) :
    resolveDictIfNecessary ds s = .ok s := by
  unfold resolveDictIfNecessary
  rw [parseFieldName_no_sep s h]
  rfl

/-! ### Claim C9 -/

/-- C9: a field name with no `__` separator that is not one of the two
virtual composite fields resolves to itself, for every dictionary
configuration. -/
theorem resolve_plain_field_unchanged (ds : List Dict) (f : String)
    (h : containsUU f.data = false)
    (h1 : f ≠ "src_ip_pfx") (h2 : f ≠ "dst_ip_pfx") :
    resolveDictIfNecessary ds (resolveVirtualField f) = .ok f := by
  rw [resolveVirtualField, if_neg h1, if_neg h2]
  exact resolveDict_of_no_sep ds f h

/-- Witness for C9 at `f = "src_asn"` with an arbitrary configuration. -/
theorem resolve_plain_field_unchanged_witness :
    containsUU ("src_asn".data) = false
    ∧ "src_asn" ≠ "src_ip_pfx"
    ∧ "src_asn" ≠ "dst_ip_pfx"
    ∧ resolveDictIfNecessary [⟨"src_asn", "asndb", "%s", []⟩] (resolveVirtualField "src_asn")
        = .ok "src_asn" :=
  ⟨by decide, by decide, by decide,
    resolve_plain_field_unchanged [⟨"src_asn", "asndb", "%s", []⟩] "src_asn"
      (by decide) (by decide) (by decide)⟩

/-! ### Claim C5 -/

/-- C5: a composite name `base__sub` whose base has a dictionary binding
resolves to a `dictGet` expression referencing the binding's dictionary
name, the attribute `sub`, and the key expression obtained by
interpolating the binding's configured key names into its expression
template — or `base` itself as the single key argument when no keys are
configured. -/
theorem resolve_composite_with_binding (ds : List Dict) (base sub : String) (d : Dict)
    (hb : containsUU (base.data ++ ['_']) = false)
    (hs : containsUU sub.data = false)
    (hne : sub ≠ "")
    (hd : getDict ds base = some d) :
    resolveDictIfNecessary ds (base ++ "__" ++ sub)
      = .ok ("dictGet(\x27" ++ d.Dict ++ "\x27, \x27" ++ sub ++ "\x27, "
          ++ goSprintf d.Expr (if d.Keys = [] then [base] else d.Keys) ++ ")") := by
  unfold resolveDictIfNecessary
  rw [parseFieldName_sep base sub hb hs]
  simp [hne, hd]

/-- Witness for C5: binding with no configured keys (`base` becomes the
single key argument) at `src_asn__name`. -/
theorem resolve_composite_with_binding_witness :
    containsUU ("src_asn".data ++ ['_']) = false
    ∧ containsUU ("name".data) = false
    ∧ "name" ≠ ""
    ∧ getDict [⟨"src_asn", "asndb", "toUInt32(%s)", []⟩] "src_asn"
        = some ⟨"src_asn", "asndb", "toUInt32(%s)", []⟩
    ∧ resolveDictIfNecessary [⟨"src_asn", "asndb", "toUInt32(%s)", []⟩] ("src_asn" ++ "__" ++ "name")
        = .ok "dictGet(\x27asndb\x27, \x27name\x27, toUInt32(src_asn))" :=
  ⟨by decide, by decide, by decide, by decide, by
    have h := resolve_composite_with_binding [⟨"src_asn", "asndb", "toUInt32(%s)", []⟩]
      "src_asn" "name" ⟨"src_asn", "asndb", "toUInt32(%s)", []⟩
      (by decide) (by decide) (by decide) (by decide)
    simpa using h⟩

/-! ### Claim C1 -/

/-- C1 counterexample: on an empty query-parameter map the handler
writes status 500 (the `nil` result from `processQuery`'s no-op path
trips the handler's nil-result check), not the claimed 200. -/
theorem empty_query_not_200_counterexample :
    (QueryHandler "flowhouse" [] [] (fun _ => .ok []) (fun _ => "")).1 = 500
    ∧ (QueryHandler "flowhouse" [] [] (fun _ => .ok []) (fun _ => "")).1 ≠ 200 := by
  decide

/-- C1 (amended): for every request whose query string is empty the
handler responds with status 500 and an empty body — `processQuery`
deliberately returns a nil result without error, but `QueryHandler`
treats the nil result as an internal failure. -/
theorem empty_query_responds_500_empty_body (dbName : String) (ds : List Dict)
    (dbExec : String → Except String (List (Int × String × Nat)))
    (csvRender : List (Int × String × Nat) → String) :
    QueryHandler dbName ds [] dbExec csvRender = (500, "") := rfl

/-! ### Claim C2 -/

/-- Helper: a breakdown field whose resolution fails contributes nothing
to the SELECT list — dropping its occurrences leaves the list
unchanged. -/
theorem breakdownSelect_filter_failed (ds : List Dict) (f err : String)
    (hres : resolveDictIfNecessary ds (resolveVirtualField f) = .error err)
    (bd : List String) :
    breakdownSelect ds bd = breakdownSelect ds (bd.filter (fun g => g ≠ f)) := by
  induction bd with
  | nil => rfl
  | cons g rest ih =>
    by_cases hg : g = f
    · subst hg
      simp only [breakdownSelect, List.filterMap_cons, hres, List.filter_cons]
      simpa [breakdownSelect] using ih
    · simp only [breakdownSelect, List.filterMap_cons, List.filter_cons, hg]
      simp only [decide_eq_true_eq, if_pos (by simpa using hg)]
      cases hr : resolveDictIfNecessary ds (resolveVirtualField g) with
      | error e => simpa [breakdownSelect, List.filterMap_cons, hr] using ih
      | ok st => simpa [breakdownSelect, List.filterMap_cons, hr] using ih

/-- C2 counterexample: with no dictionary bindings, the breakdown field
`src_asn__name` fails resolution and is omitted from the SELECT list,
but the generated statement still lists it raw in GROUP BY — the claim
that it is omitted from *both* lists is false. -/
theorem unresolved_breakdown_in_group_by_counterexample :
    resolveDictIfNecessary [] (resolveVirtualField "src_asn__name")
        = .error "Dict for field src_asn__name not found"
    ∧ breakdownSelect [] ["src_asn__name"] = []
    ∧ "src_asn__name" ∈ groupByList
        [("breakdown", ["src_asn__name"]), ("time_start", ["2024-01-01T10:00"]),
         ("time_end", ["2024-01-01T11:00"])]
    ∧ fieldsToQuery "flowhouse" []
        [("breakdown", ["src_asn__name"]), ("time_start", ["2024-01-01T10:00"]),
         ("time_end", ["2024-01-01T11:00"])]
      = .ok ("SELECT timestamp as t, sum(size * samplerate) * 8 / 10 FROM flowhouse.flows"
          ++ " WHERE t BETWEEN toDateTime(1704096000) AND toDateTime(1704099600)"
          ++ " GROUP BY t, src_asn__name ORDER BY t") := by
  decide

/-- C2 (amended): a breakdown field whose resolution fails is omitted
from the SELECT list, but its raw name is still listed in GROUP BY; the
request proceeds — `fieldsToQuery` still returns a statement and does
not propagate the resolution error. -/
theorem unresolved_breakdown_skipped_in_select_kept_in_group_by
    (dbName : String) (ds : List Dict) (fields : List (String × List String))
    (bd ss es : List String) (f err s e : String) (t₁ t₂ : Int)
    (hb : getParam fields "breakdown" = some bd)
    (hf : f ∈ bd)
    (hres : resolveDictIfNecessary ds (resolveVirtualField f) = .error err)
    (hs : getParam fields "time_start" = some (s :: ss))
    (he : getParam fields "time_end" = some (e :: es))
    (hts : timeFieldToTimestamp s = .ok t₁)
    (hte : timeFieldToTimestamp e = .ok t₂) :
    breakdownSelect ds bd = breakdownSelect ds (bd.filter (fun g => g ≠ f))
    ∧ f ∈ groupByList fields
    ∧ ∃ q, fieldsToQuery dbName ds fields = .ok q := by
  refine ⟨breakdownSelect_filter_failed ds f err hres bd, ?_, ?_⟩
  · simp only [groupByList, lookupVals, hb, Option.getD_some]
    exact List.mem_cons_of_mem _ hf
  · simp [fieldsToQuery, lookupVals, hb, hs, he, hts, hte]

/-- Witness for C2 (amended) at the counterexample's concrete request. -/
theorem unresolved_breakdown_skipped_witness :
    getParam
        [("breakdown", ["src_asn__name"]), ("time_start", ["2024-01-01T10:00"]),
         ("time_end", ["2024-01-01T11:00"])] "breakdown" = some ["src_asn__name"]
    ∧ "src_asn__name" ∈ (["src_asn__name"] : List String)
    ∧ resolveDictIfNecessary [] (resolveVirtualField "src_asn__name")
        = .error "Dict for field src_asn__name not found"
    ∧ timeFieldToTimestamp "2024-01-01T10:00" = .ok 1704096000
    ∧ (breakdownSelect [] ["src_asn__name"]
          = breakdownSelect [] (["src_asn__name"].filter (fun g => g ≠ "src_asn__name"))
        ∧ "src_asn__name" ∈ groupByList
            [("breakdown", ["src_asn__name"]), ("time_start", ["2024-01-01T10:00"]),
             ("time_end", ["2024-01-01T11:00"])]
        ∧ ∃ q, fieldsToQuery "flowhouse" []
            [("breakdown", ["src_asn__name"]), ("time_start", ["2024-01-01T10:00"]),
             ("time_end", ["2024-01-01T11:00"])] = .ok q) :=
  ⟨by decide, by decide, by decide, by decide,
    unresolved_breakdown_skipped_in_select_kept_in_group_by
      "flowhouse" [] _ ["src_asn__name"] [] [] "src_asn__name"
      "Dict for field src_asn__name not found" "2024-01-01T10:00" "2024-01-01T11:00"
      1704096000 1704099600
      (by decide) (by decide) (by decide) (by decide) (by decide) (by decide) (by decide)⟩

/-! ### Claim C8 -/

/-- C8: validation order of `fieldsToQuery` — a missing breakdown list
fails first (before any SQL is assembled), then a missing start time,
then a missing end time, then an unparsable start or end time string;
the four failures are pairwise distinct. -/
theorem fieldsToQuery_validation_order (dbName : String) (ds : List Dict)
    (fields : List (String × List String)) (bd ss es : List String) (s e em : String) (t : Int) :
    (getParam fields "breakdown" = none →
        fieldsToQuery dbName ds fields = .error .noBreakdownSet)
    ∧ (getParam fields "breakdown" = some bd → getParam fields "time_start" = none →
        fieldsToQuery dbName ds fields = .error .noStartTimeGiven)
    ∧ (getParam fields "breakdown" = some bd → getParam fields "time_start" = some ss →
        getParam fields "time_end" = none →
        fieldsToQuery dbName ds fields = .error .noEndTimeGiven)
    ∧ (getParam fields "breakdown" = some bd → getParam fields "time_start" = some (s :: ss) →
        getParam fields "time_end" = some (e :: es) →
        timeFieldToTimestamp s = .error em →
        fieldsToQuery dbName ds fields = .error (.unableToParseTime em))
    ∧ (getParam fields "breakdown" = some bd → getParam fields "time_start" = some (s :: ss) →
        getParam fields "time_end" = some (e :: es) →
        timeFieldToTimestamp s = .ok t →
        timeFieldToTimestamp e = .error em →
        fieldsToQuery dbName ds fields = .error (.unableToParseTime em))
    ∧ (QueryErr.noBreakdownSet ≠ QueryErr.noStartTimeGiven
        ∧ QueryErr.noBreakdownSet ≠ QueryErr.noEndTimeGiven
        ∧ QueryErr.noBreakdownSet ≠ QueryErr.unableToParseTime em
        ∧ QueryErr.noStartTimeGiven ≠ QueryErr.noEndTimeGiven
        ∧ QueryErr.noStartTimeGiven ≠ QueryErr.unableToParseTime em
        ∧ QueryErr.noEndTimeGiven ≠ QueryErr.unableToParseTime em) := by
  refine ⟨?_, ?_, ?_, ?_, ?_, by simp, by simp, by simp, by simp, by simp, by simp⟩
  · intro h
    simp [fieldsToQuery, h]
  · intro hb h
    simp [fieldsToQuery, hb, h]
  · intro hb hs h
    simp [fieldsToQuery, hb, hs, h]
  · intro hb hs he hp
    simp [fieldsToQuery, lookupVals, hb, hs, he, hp]
  · intro hb hs he hok hp
    simp [fieldsToQuery, lookupVals, hb, hs, he, hok, hp]

/-- Witness for C8 exercising each validation failure on concrete
requests. -/
theorem fieldsToQuery_validation_order_witness :
    fieldsToQuery "flowhouse" [] [] = .error .noBreakdownSet
    ∧ fieldsToQuery "flowhouse" [] [("breakdown", ["src_asn"])] = .error .noStartTimeGiven
    ∧ fieldsToQuery "flowhouse" []
        [("breakdown", ["src_asn"]), ("time_start", ["2024-01-01T10:00"])]
      = .error .noEndTimeGiven
    ∧ fieldsToQuery "flowhouse" []
        [("breakdown", ["src_asn"]), ("time_start", ["bogus"]),
         ("time_end", ["2024-01-01T11:00"])]
      = .error (.unableToParseTime "Unable to parse \"bogus:00+02:00\"")
    ∧ fieldsToQuery "flowhouse" []
        [("breakdown", ["src_asn"]), ("time_start", ["2024-01-01T10:00"]),
         ("time_end", ["bogus"])]
      = .error (.unableToParseTime "Unable to parse \"bogus:00+02:00\"") :=
  ⟨(fieldsToQuery_validation_order "flowhouse" [] [] [] [] [] "" "" "" 0).1 (by decide),
   (fieldsToQuery_validation_order "flowhouse" [] [("breakdown", ["src_asn"])]
      ["src_asn"] [] [] "" "" "" 0).2.1 (by decide) (by decide),
   (fieldsToQuery_validation_order "flowhouse" []
      [("breakdown", ["src_asn"]), ("time_start", ["2024-01-01T10:00"])]
      ["src_asn"] ["2024-01-01T10:00"] [] "" "" "" 0).2.2.1 (by decide) (by decide) (by decide),
   (fieldsToQuery_validation_order "flowhouse" []
      [("breakdown", ["src_asn"]), ("time_start", ["bogus"]), ("time_end", ["2024-01-01T11:00"])]
      ["src_asn"] [] [] "bogus" "2024-01-01T11:00"
      "Unable to parse \"bogus:00+02:00\"" 0).2.2.2.1
      (by decide) (by decide) (by decide) (by decide),
   (fieldsToQuery_validation_order "flowhouse" []
      [("breakdown", ["src_asn"]), ("time_start", ["2024-01-01T10:00"]), ("time_end", ["bogus"])]
      ["src_asn"] [] [] "2024-01-01T10:00" "bogus"
      "Unable to parse \"bogus:00+02:00\"" 1704096000).2.2.2.2.1
      (by decide) (by decide) (by decide) (by decide) (by decide)⟩

/-! ### Claims C4 and C10: the filter loop -/

/-- Helper: with duplicate-free parameter names (as in a Go map), a
present entry is exactly what `getParam` finds. -/
theorem getParam_of_mem (fields : List (String × List String)) (k : String) (vs : List String)
    (hnd : (fields.map Prod.fst).Nodup) (hmem : (k, vs) ∈ fields) :
    getParam fields k = some vs := by
  induction fields with
  | nil => cases hmem
  | cons kv rest ih =>
    rw [List.map_cons, List.nodup_cons] at hnd
    rcases List.mem_cons.mp hmem with h | h
    · subst h
      simp [getParam, List.find?_cons]
    · have hne : kv.1 ≠ k := by
        intro he
        exact hnd.1 (he ▸ List.mem_map.mpr ⟨(k, vs), h, rfl⟩)
      have := ih hnd.2 h
      simpa [getParam, List.find?_cons, hne] using this

/-- C4 counterexample: the filter parameter `src_ip_pfx` carries exactly
one value and resolves successfully, yet the generated WHERE conditions
contain an empty `IN ()` predicate for it and no `=` predicate — the
claimed equality shape fails for virtual composite filter names. -/
theorem virtual_filter_no_equality_counterexample :
    resolveDictIfNecessary []
        (resolveVirtualField "src_ip_pfx")
      = .ok "concat(IPv6NumToString(src_ip_pfx_addr), \x27/\x27, toString(src_ip_pfx_len))"
    ∧ filterConditions []
        [("breakdown", ["src_asn"]), ("time_start", ["2024-01-01T10:00"]),
         ("time_end", ["2024-01-01T11:00"]), ("src_ip_pfx", ["192.0.2.1/24"])]
      = ["concat(IPv6NumToString(src_ip_pfx_addr), \x27/\x27, toString(src_ip_pfx_len)) IN ()"]
    ∧ ("concat(IPv6NumToString(src_ip_pfx_addr), \x27/\x27, toString(src_ip_pfx_len)) = \x27192.0.2.1/24\x27")
        ∉ filterConditions []
        [("breakdown", ["src_asn"]), ("time_start", ["2024-01-01T10:00"]),
         ("time_end", ["2024-01-01T11:00"]), ("src_ip_pfx", ["192.0.2.1/24"])] := by
  decide

/-- C4 (amended): for every filter parameter whose name is left
unchanged by virtual-field resolution (i.e. not `src_ip_pfx` or
`dst_ip_pfx` — for those the value lookup misses and an empty `IN ()` is
produced, see C10) and whose resolution succeeds, a single value yields
the equality predicate `<resolved> = \x27<value>\x27` and two or more values
yield `<resolved> IN (...)` listing exactly the quoted values, among the
generated WHERE conditions. -/
theorem filter_predicates_eq_and_in (ds : List Dict) (fields : List (String × List String))
    (k : String) (vs : List String) (stmt : String)
    (hnd : (fields.map Prod.fst).Nodup)
    (hmem : (k, vs) ∈ fields)
    (hk1 : k ≠ "breakdown") (hk2 : k ≠ "time_start") (hk3 : k ≠ "time_end")
    (hk4 : listLeads "filter_field".data k.data = false)
    (hvirt : resolveVirtualField k = k)
    (hres : resolveDictIfNecessary ds k = .ok stmt) :
    (∀ v, vs = [v] → (stmt ++ " = \x27" ++ v ++ "\x27") ∈ filterConditions ds fields)
    ∧ (∀ v₁ v₂ rest, vs = v₁ :: v₂ :: rest →
        (stmt ++ " IN ("
          ++ String.intercalate ", " (vs.map (fun v => "\x27" ++ v ++ "\x27")) ++ ")")
          ∈ filterConditions ds fields) := by
  have hskip : (k == "breakdown" || k == "time_start" || k == "time_end"
      || listLeads "filter_field".data k.data) = false := by
    simp [hk1, hk2, hk3, hk4]
  have hlv : lookupVals fields k = vs := by
    simp [lookupVals, getParam_of_mem fields k vs hnd hmem]
  constructor
  · rintro v rfl
    unfold filterConditions
    refine List.mem_filterMap.mpr ⟨(k, [v]), hmem, ?_⟩
    simp [hskip, hvirt, hres, hlv]
  · rintro v₁ v₂ rest rfl
    unfold filterConditions
    refine List.mem_filterMap.mpr ⟨(k, v₁ :: v₂ :: rest), hmem, ?_⟩
    simp [hskip, hvirt, hres, hlv]

/-- Witness for C4 (amended): a one-value filter `dst_port=443` and a
two-value filter producing the `IN` predicate. -/
theorem filter_predicates_eq_and_in_witness :
    ("dst_port", ["443"]) ∈
        [("breakdown", ["src_asn"]), ("dst_port", (["443"] : List String))]
    ∧ resolveDictIfNecessary [] "dst_port" = .ok "dst_port"
    ∧ ("dst_port = \x27443\x27")
        ∈ filterConditions [] [("breakdown", ["src_asn"]), ("dst_port", ["443"])]
    ∧ ("dst_port IN (\x27443\x27, \x2780\x27)")
        ∈ filterConditions [] [("breakdown", ["src_asn"]), ("dst_port", ["443", "80"])] :=
  ⟨by decide, by decide,
    (filter_predicates_eq_and_in [] [("breakdown", ["src_asn"]), ("dst_port", ["443"])]
      "dst_port" ["443"] "dst_port" (by decide) (by decide) (by decide) (by decide)
      (by decide) (by decide) (by decide) (by decide)).1 "443" rfl,
    (filter_predicates_eq_and_in [] [("breakdown", ["src_asn"]), ("dst_port", ["443", "80"])]
      "dst_port" ["443", "80"] "dst_port" (by decide) (by decide) (by decide) (by decide)
      (by decide) (by decide) (by decide) (by decide)).2 "443" "80" [] rfl⟩

/-- C10: for a filter parameter named `src_ip_pfx` or `dst_ip_pfx` the
value lookup in the filter loop uses the resolved SQL expression instead
of the original parameter name, so (as long as no parameter is literally
named by that expression) the values are never found and the generated
predicate is the empty membership predicate `<expr> IN ()`, regardless
of the parameter's values. -/
theorem virtual_filter_empty_in_predicate (ds : List Dict)
    (fields : List (String × List String)) (k : String) (vs : List String)
    (hk : k = "src_ip_pfx" ∨ k = "dst_ip_pfx")
    (hmem : (k, vs) ∈ fields)
    (hnone : getParam fields (resolveVirtualField k) = none) :
    (resolveVirtualField k ++ " IN ()") ∈ filterConditions ds fields := by
  rcases hk with rfl | rfl
  · have hres := resolveDict_of_no_sep ds (resolveVirtualField "src_ip_pfx") (by decide)
    have hlv : lookupVals fields (resolveVirtualField "src_ip_pfx") = [] := by
      simp [lookupVals, hnone]
    unfold filterConditions
    refine List.mem_filterMap.mpr ⟨("src_ip_pfx", vs), hmem, ?_⟩
    simp [hres, hlv]
    decide
  · have hres := resolveDict_of_no_sep ds (resolveVirtualField "dst_ip_pfx") (by decide)
    have hlv : lookupVals fields (resolveVirtualField "dst_ip_pfx") = [] := by
      simp [lookupVals, hnone]
    unfold filterConditions
    refine List.mem_filterMap.mpr ⟨("dst_ip_pfx", vs), hmem, ?_⟩
    simp [hres, hlv]
    decide

/-- Witness for C10: a two-value `src_ip_pfx` filter parameter produces
the empty `IN ()` predicate. -/
theorem virtual_filter_empty_in_predicate_witness :
    ("src_ip_pfx", ["192.0.2.1/24", "10.0.0.0/8"]) ∈
        [("breakdown", ["src_asn"]),
         ("src_ip_pfx", (["192.0.2.1/24", "10.0.0.0/8"] : List String))]
    ∧ getParam
        [("breakdown", ["src_asn"]), ("src_ip_pfx", ["192.0.2.1/24", "10.0.0.0/8"])]
        (resolveVirtualField "src_ip_pfx") = none
    ∧ (resolveVirtualField "src_ip_pfx" ++ " IN ()")
        ∈ filterConditions []
          [("breakdown", ["src_asn"]), ("src_ip_pfx", ["192.0.2.1/24", "10.0.0.0/8"])] :=
  ⟨by decide, by decide,
    virtual_filter_empty_in_predicate []
      [("breakdown", ["src_asn"]), ("src_ip_pfx", ["192.0.2.1/24", "10.0.0.0/8"])]
      "src_ip_pfx" ["192.0.2.1/24", "10.0.0.0/8"]
      (Or.inl rfl) (by decide) (by decide)⟩

/-! ### Claim C6 -/

/-- Decimal digit character for `n < 10`. -/
def digitChar (n : Nat) : Char :=
  match n with
  | 0 => '0' | 1 => '1' | 2 => '2' | 3 => '3' | 4 => '4'
  | 5 => '5' | 6 => '6' | 7 => '7' | 8 => '8' | _ => '9'

/-- Two-digit zero-padded rendering. -/
def pad2 (n : Nat) : List Char := [digitChar (n / 10), digitChar (n % 10)]

/-- Four-digit zero-padded rendering. -/
def pad4 (n : Nat) : List Char :=
  [digitChar (n / 1000), digitChar (n / 100 % 10), digitChar (n / 10 % 10), digitChar (n % 10)]

/-- The user-facing minute-precision time string `YYYY-MM-DDTHH:MM`. -/
def renderMinuteTime (y mo d h mi : Nat) : String :=
  String.mk (pad4 y ++ '-' :: pad2 mo ++ '-' :: pad2 d ++ 'T' :: pad2 h ++ ':' :: pad2 mi)

theorem digitVal_digitChar (n : Nat) (h : n < 10) : digitVal (digitChar n) = some n := by
  interval_cases n <;> rfl

theorem parse2_pad2 (n : Nat) (h : n ≤ 99) (rest : List Char) :
    parse2 (pad2 n ++ rest) = some (n, rest) := by
  have h1 : n / 10 < 10 := by omega
  have h2 : n % 10 < 10 := by omega
  simp [pad2, parse2, digitVal_digitChar _ h1, digitVal_digitChar _ h2]
  omega

theorem parse4_pad4 (n : Nat) (h : n ≤ 9999) (rest : List Char) :
    parse4 (pad4 n ++ rest) = some (n, rest) := by
  have h1 : n / 1000 < 10 := by omega
  have h2 : n / 100 % 10 < 10 := by omega
  have h3 : n / 10 % 10 < 10 := by omega
  have h4 : n % 10 < 10 := by omega
  simp [pad4, parse4, digitVal_digitChar _ h1, digitVal_digitChar _ h2,
    digitVal_digitChar _ h3, digitVal_digitChar _ h4]
  omega

theorem parseHourFlex_pad2 (n : Nat) (h : n ≤ 99) (rest : List Char) :
    parseHourFlex (pad2 n ++ rest) = some (n, rest) := by
  have h1 : n / 10 < 10 := by omega
  have h2 : n % 10 < 10 := by omega
  simp [pad2, parseHourFlex, digitVal_digitChar _ h1, digitVal_digitChar _ h2]
  omega

theorem expectCh_self (c : Char) (rest : List Char) : expectCh c (c :: rest) = some rest := by
  simp [expectCh]

theorem goDaysIn_le (m y : Nat) : goDaysIn m y ≤ 31 := by
  unfold goDaysIn
  split_ifs <;> omega

theorem goTimeParse_rendered (y mo d h mi : Nat) (hy : y ≤ 9999)
    (hmo1 : 1 ≤ mo) (hmo2 : mo ≤ 12) (hd1 : 1 ≤ d) (hd2 : d ≤ goDaysIn mo y)
    (hh : h ≤ 23) (hmi : mi ≤ 59) :
    goTimeParse (pad4 y ++ '-' :: pad2 mo ++ '-' :: pad2 d ++ 'T' :: pad2 h ++ ':' :: pad2 mi
        ++ [':', '0', '0', '+', '0', '2', ':', '0', '0'])
      = some (86400 * daysFromCivil y mo d + 3600 * (h : Int) + 60 * (mi : Int) - 7200) := by
  have hd99 : d ≤ 99 := by have := goDaysIn_le mo y; omega
  unfold goTimeParse
  simp only [List.append_assoc, List.cons_append, parse4_pad4 y hy,
    parse2_pad2 mo (by omega : mo ≤ 99), parse2_pad2 d hd99,
    parse2_pad2 mi (by omega : mi ≤ 99), parseHourFlex_pad2 h (by omega : h ≤ 99),
    expectCh_self]
  simp only [(by decide : parse2 ['0', '0', '+', '0', '2', ':', '0', '0']
      = some (0, ['+', '0', '2', ':', '0', '0'])),
    (by decide : parseTZ (skipFraction ['+', '0', '2', ':', '0', '0'])
      = some ((7200 : Int), ([] : List Char)))]
  rw [if_neg (by simp), if_neg (by omega), if_neg (by omega), if_neg (by omega),
    if_neg (by omega), if_neg (by omega)]
  simp

/-- C6: a minute-precision time string `YYYY-MM-DDTHH:MM` (with valid
calendar components) is interpreted as wall-clock minutes at the
hard-coded fixed UTC offset `+02:00` — the result is the civil epoch
seconds of the components minus 7200; and every string the
suffix-and-parse scheme rejects makes `timeFieldToTimestamp` return an
error (which `fieldsToQuery` propagates, see C8). -/
theorem timeFieldToTimestamp_fixed_offset (y mo d h mi : Nat) (hy : y ≤ 9999)
    (hmo1 : 1 ≤ mo) (hmo2 : mo ≤ 12) (hd1 : 1 ≤ d) (hd2 : d ≤ goDaysIn mo y)
    (hh : h ≤ 23) (hmi : mi ≤ 59) :
    timeFieldToTimestamp (renderMinuteTime y mo d h mi)
      = .ok (86400 * daysFromCivil y mo d + 3600 * (h : Int) + 60 * (mi : Int) - 7200)
    ∧ (∀ v : String, goTimeParse (v ++ ":00+02:00").data = none →
        timeFieldToTimestamp v
          = .error ("Unable to parse \"" ++ (v ++ ":00+02:00") ++ "\"")) := by
  constructor
  · have hd : (renderMinuteTime y mo d h mi ++ ":00+02:00").data
        = pad4 y ++ '-' :: pad2 mo ++ '-' :: pad2 d ++ 'T' :: pad2 h ++ ':' :: pad2 mi
            ++ [':', '0', '0', '+', '0', '2', ':', '0', '0'] := by
      rw [string_data_append]
      rfl
    unfold timeFieldToTimestamp
    dsimp only
    rw [hd, goTimeParse_rendered y mo d h mi hy hmo1 hmo2 hd1 hd2 hh hmi]
  · intro v hv
    unfold timeFieldToTimestamp
    dsimp only
    rw [hv]

/-- Witness for C6: `2024-01-01T10:00` parses to epoch `1704096000`
(08:00 UTC, i.e. minus the 7200-second offset), and `"bogus"` fails. -/
theorem timeFieldToTimestamp_fixed_offset_witness :
    renderMinuteTime 2024 1 1 10 0 = "2024-01-01T10:00"
    ∧ timeFieldToTimestamp (renderMinuteTime 2024 1 1 10 0) = .ok 1704096000
    ∧ timeFieldToTimestamp "bogus" = .error "Unable to parse \"bogus:00+02:00\"" :=
  ⟨by decide,
    ((timeFieldToTimestamp_fixed_offset 2024 1 1 10 0 (by decide) (by decide) (by decide)
        (by decide) (by decide) (by decide) (by decide)).1).trans (by decide),
    (((timeFieldToTimestamp_fixed_offset 2024 1 1 10 0 (by decide) (by decide) (by decide)
        (by decide) (by decide) (by decide) (by decide)).2) "bogus" (by decide)).trans
      (by decide)⟩

/-! ### Claim C7: sorting lemmas -/

theorem strLtB_asymm (a b : List Char) (h : strLtB a b = true) : strLtB b a = false := by
  induction a generalizing b with
  | nil =>
    cases b with
    | nil => simp [strLtB] at h
    | cons c cs => simp [strLtB]
  | cons x xs ih =>
    cases b with
    | nil => simp [strLtB] at h
    | cons c cs =>
      by_cases h1 : x.toNat < c.toNat
      · simp only [strLtB, if_neg (by omega : ¬ c.toNat < x.toNat), if_pos h1]
      · by_cases h2 : c.toNat < x.toNat
        · simp [strLtB, h1, h2] at h
        · simp only [strLtB, if_neg h1, if_neg h2] at h ⊢
          exact ih cs h

theorem strLtB_false_trans (a b c : List Char)
    (h1 : strLtB b a = false) (h2 : strLtB c b = false) : strLtB c a = false := by
  induction a generalizing b c with
  | nil =>
    cases c with
    | nil => rfl
    | cons z zs => rfl
  | cons x xs ih =>
    cases b with
    | nil => simp [strLtB] at h1
    | cons y ys =>
      cases c with
      | nil => simp [strLtB] at h2
      | cons z zs =>
        by_cases hyx : y.toNat < x.toNat
        · simp [strLtB, hyx] at h1
        · by_cases hzy : z.toNat < y.toNat
          · simp [strLtB, hzy] at h2
          · simp only [strLtB, if_neg hyx] at h1
            simp only [strLtB, if_neg hzy] at h2
            by_cases hxy : x.toNat < y.toNat
            · simp only [strLtB, if_neg (by omega : ¬ z.toNat < x.toNat),
                if_pos (by omega : x.toNat < z.toNat)]
            · by_cases hyz : y.toNat < z.toNat
              · simp only [strLtB, if_neg (by omega : ¬ z.toNat < x.toNat),
                  if_pos (by omega : x.toNat < z.toNat)]
              · simp only [if_neg hxy] at h1
                simp only [if_neg hyz] at h2
                simp only [strLtB, if_neg (by omega : ¬ z.toNat < x.toNat),
                  if_neg (by omega : ¬ x.toNat < z.toNat)]
                exact ih ys zs h1 h2

theorem insertSorted_perm (s : String) (l : List String) :
    List.Perm (insertSorted s l) (s :: l) := by
  induction l with
  | nil => exact List.Perm.refl _
  | cons t ts ih =>
    unfold insertSorted
    by_cases hc : strLtB t.data s.data = true
    · rw [if_pos hc]
      exact (ih.cons t).trans (List.Perm.swap s t ts)
    · rw [if_neg hc]

theorem sortStrings_perm (l : List String) : List.Perm (sortStrings l) l := by
  induction l with
  | nil => exact List.Perm.refl _
  | cons s ss ih =>
    exact (insertSorted_perm s (sortStrings ss)).trans (ih.cons s)

theorem insertSorted_pairwise (s : String) (l : List String)
    (h : l.Pairwise (fun a b => strLtB b.data a.data = false)) :
    (insertSorted s l).Pairwise (fun a b => strLtB b.data a.data = false) := by
  induction l with
  | nil => simp [insertSorted]
  | cons t ts ih =>
    rw [List.pairwise_cons] at h
    unfold insertSorted
    by_cases hc : strLtB t.data s.data = true
    · rw [if_pos hc, List.pairwise_cons]
      refine ⟨?_, ih h.2⟩
      intro x hx
      rcases List.mem_cons.mp ((insertSorted_perm s ts).mem_iff.mp hx) with rfl | hxts
      · exact strLtB_asymm _ _ hc
      · exact h.1 x hxts
    · rw [if_neg hc, List.pairwise_cons]
      simp only [Bool.not_eq_true] at hc
      refine ⟨?_, List.pairwise_cons.mpr ⟨h.1, h.2⟩⟩
      intro x hx
      rcases List.mem_cons.mp hx with rfl | hxts
      · exact hc
      · exact strLtB_false_trans s.data t.data x.data hc (h.1 x hxts)

theorem sortStrings_pairwise (l : List String) :
    (sortStrings l).Pairwise (fun a b => strLtB b.data a.data = false) := by
  induction l with
  | nil => simp [sortStrings]
  | cons s ss ih => exact insertSorted_pairwise s (sortStrings ss) ih

/-- C7 counterexample: the endpoint does not deduplicate — a backend
answer `["a", "a"]` is echoed with both copies (filtered and sorted but
not distinct), so the response body is not a duplicate-free array. -/
theorem dict_values_not_deduplicated_counterexample :
    GetDictValues [⟨"src_asn", "asndb", "%s", []⟩] "/dict/src_asn__name"
        (fun _ _ => .ok ["a", "a"])
      = (200, "[\"a\",\"a\"]")
    ∧ sortStrings ((["a", "a"] : List String).filter (fun v => v ≠ "")) = ["a", "a"]
    ∧ ¬ (["a", "a"] : List String).Nodup := by
  refine ⟨by decide, by decide, ?_⟩
  simp

/-- C7 (amended): a malformed path (not three `/`-separated parts, or a
last part that is not `field__column`) or an unknown field-dictionary
binding yields status 400; a backend failure yields 500; on success the
status is 200 and the body is the JSON array of the backend's values
with empty strings removed and sorted lexicographically ascending —
duplicates are preserved (the endpoint itself does not deduplicate, so
distinctness holds only if the backend's values are distinct). -/
theorem GetDictValues_statuses_and_sorted_body (ds : List Dict)
    (backend : String → String → Except Unit (List String)) (path : String) :
    ((goSplitSlashStr path).length ≠ 3 → GetDictValues ds path backend = (400, ""))
    ∧ (∀ p₀ p₁ seg e, goSplitSlashStr path = [p₀, p₁, seg] →
        parseDictValueRequest seg = .error e →
        GetDictValues ds path backend = (400, ""))
    ∧ (∀ p₀ p₁ seg f col, goSplitSlashStr path = [p₀, p₁, seg] →
        parseDictValueRequest seg = .ok (f, col) →
        getFieldsDictName ds f = "" →
        GetDictValues ds path backend = (400, ""))
    ∧ (∀ p₀ p₁ seg f col, goSplitSlashStr path = [p₀, p₁, seg] →
        parseDictValueRequest seg = .ok (f, col) →
        getFieldsDictName ds f ≠ "" →
        backend (getFieldsDictName ds f) col = .error () →
        GetDictValues ds path backend = (500, ""))
    ∧ (∀ p₀ p₁ seg f col vs, goSplitSlashStr path = [p₀, p₁, seg] →
        parseDictValueRequest seg = .ok (f, col) →
        getFieldsDictName ds f ≠ "" →
        backend (getFieldsDictName ds f) col = .ok vs →
        GetDictValues ds path backend
            = (200, jsonMarshalStrings (sortStrings (vs.filter (fun v => v ≠ ""))))
          ∧ List.Perm (sortStrings (vs.filter (fun v => v ≠ "")))
              (vs.filter (fun v => v ≠ ""))
          ∧ (sortStrings (vs.filter (fun v => v ≠ ""))).Pairwise
              (fun a b => strLtB b.data a.data = false)) := by
  refine ⟨?_, ?_, ?_, ?_, ?_⟩
  · intro hlen
    unfold GetDictValues
    cases hsp : goSplitSlashStr path with
    | nil => rfl
    | cons a t =>
      cases t with
      | nil => rfl
      | cons b t₂ =>
        cases t₂ with
        | nil => rfl
        | cons c t₃ =>
          cases t₃ with
          | nil => rw [hsp] at hlen; simp at hlen
          | cons d t₄ => rfl
  · intro p₀ p₁ seg e hsp hparse
    simp [GetDictValues, hsp, hparse]
  · intro p₀ p₁ seg f col hsp hparse hdict
    simp [GetDictValues, hsp, hparse, hdict]
  · intro p₀ p₁ seg f col hsp hparse hdict hbk
    simp [GetDictValues, hsp, hparse, hdict, hbk]
  · intro p₀ p₁ seg f col vs hsp hparse hdict hbk
    refine ⟨?_, sortStrings_perm _, sortStrings_pairwise _⟩
    simp [GetDictValues, hsp, hparse, hdict, hbk]

/-- Witness for C7 (amended) on a concrete configuration: a 200 with
filtered sorted body, plus 400 and 500 cases. -/
theorem GetDictValues_statuses_witness :
    goSplitSlashStr "/dict/src_asn__name" = ["", "dict", "src_asn__name"]
    ∧ parseDictValueRequest "src_asn__name" = .ok ("src_asn", "name")
    ∧ getFieldsDictName [⟨"src_asn", "asndb", "%s", []⟩] "src_asn" = "asndb"
    ∧ GetDictValues [⟨"src_asn", "asndb", "%s", []⟩] "/dict/src_asn__name"
        (fun _ _ => .ok ["b", "", "a"])
      = (200, jsonMarshalStrings (sortStrings ((["b", "", "a"] : List String).filter
          (fun v => v ≠ ""))))
    ∧ GetDictValues [⟨"src_asn", "asndb", "%s", []⟩] "/dict/src_asn__name"
        (fun _ _ => .error ()) = (500, "")
    ∧ GetDictValues [] "/dict/src_asn__name" (fun _ _ => .ok []) = (400, "")
    ∧ GetDictValues [⟨"src_asn", "asndb", "%s", []⟩] "/dict/src_asn"
        (fun _ _ => .ok []) = (400, "")
    ∧ GetDictValues [⟨"src_asn", "asndb", "%s", []⟩] "/a/b/c/x" (fun _ _ => .ok [])
      = (400, "") :=
  ⟨by decide, by decide, by decide,
    ((GetDictValues_statuses_and_sorted_body [⟨"src_asn", "asndb", "%s", []⟩]
        (fun _ _ => .ok ["b", "", "a"]) "/dict/src_asn__name").2.2.2.2
      "" "dict" "src_asn__name" "src_asn" "name" ["b", "", "a"]
      (by decide) (by decide) (by decide) rfl).1,
    (GetDictValues_statuses_and_sorted_body [⟨"src_asn", "asndb", "%s", []⟩]
        (fun _ _ => .error ()) "/dict/src_asn__name").2.2.2.1
      "" "dict" "src_asn__name" "src_asn" "name"
      (by decide) (by decide) (by decide) rfl,
    (GetDictValues_statuses_and_sorted_body []
        (fun _ _ => .ok []) "/dict/src_asn__name").2.2.1
      "" "dict" "src_asn__name" "src_asn" "name" (by decide) (by decide) (by decide),
    (GetDictValues_statuses_and_sorted_body [⟨"src_asn", "asndb", "%s", []⟩]
        (fun _ _ => .ok []) "/dict/src_asn").2.1
      "" "dict" "src_asn" "Invalid format" (by decide) (by decide),
    (GetDictValues_statuses_and_sorted_body [⟨"src_asn", "asndb", "%s", []⟩]
        (fun _ _ => .ok []) "/a/b/c/x").1 (by decide)⟩

end Flowhouse

